import Mathlib

/-!
Shallow embedding of the `reachable` Go package (reachable.go).

The package polls a remote host for TCP reachability and invokes a
notifier callback only when the reachability state changes.  The model
below mirrors the source structure by structure:

* `Checker` mirrors the exported struct fields (reachable.go:70-82);
  the `Notifier` callback and the private `quit` channel are modelled by
  the run-loop semantics (`runLoop`) rather than as struct fields: the
  list of notifier invocations is the loop's observable output, and the
  receipt of the cancellation signal is the `RunEvent.quit` event.
* `hasInterfaceUp` mirrors reachable.go:113-128; the result of
  `net.Interfaces()` is an environment input `Option (List NetInterface)`
  (`none` models a non-nil error).
* `ensurePort` / `canConnect` mirror reachable.go:130-140; the network
  outcome of `net.DialTimeout` is an oracle `String → Bool` and the
  attempt's address and timeout are recorded in a `DialAttempt`.
* `tickBody` / `runLoop` / `run` mirror reachable.go:142-173; each tick
  of the ticker carries a `ProbeEnv` (the state of the outside world at
  that tick), and the `select` outcomes consumed by the loop are a list
  of `RunEvent`s.
* `PackageState`, `initPackageState`, `Stop`, `facadeNotify` mirror the
  package-level facade (reachable.go:52-66 and 97-111).

Durations are Go `time.Duration` values, i.e. signed nanosecond counts,
modelled as `Int`.
-/

namespace Reachable

/-- One nanosecond count for Go `time.Second`. -/
def timeSecond : Int := 1000000000

/-- Go `time.Minute` in nanoseconds. -/
def timeMinute : Int := 60 * timeSecond

/-- Go `net.FlagUp` (bit 0 of `net.Flags`). -/
def FlagUp : Nat := 1

/-- Go `net.FlagLoopback` (bit 2 of `net.Flags`). -/
def FlagLoopback : Nat := 4

/-- One entry of the slice returned by `net.Interfaces()`: only the
`Flags` bitmask is consulted by the source. -/
structure NetInterface where
  flags : Nat
deriving DecidableEq

/-- The `Checker` struct (reachable.go:70-82).  `Hostport` is the
host-and-optional-port target string, `Interval` the poll period in
nanoseconds.  There is no timeout field in the source struct. -/
structure Checker where
  Hostport : String
  Interval : Int
deriving DecidableEq

/-- The interface scan loop of `hasInterfaceUp` (reachable.go:118-127):
skip any interface whose loopback flag is set (`continue`), return true
at the first remaining interface whose up flag is set. -/
def interfacesScan : List NetInterface → Bool
  | [] => false
  | x :: rest =>
    if x.flags &&& FlagLoopback ≠ 0 then interfacesScan rest
    else if x.flags &&& FlagUp ≠ 0 then true
    else interfacesScan rest

/-- `Checker.hasInterfaceUp` (reachable.go:113-128).  `enum` is the
outcome of `net.Interfaces()`: `none` models a non-nil error, in which
case the source returns false immediately. -/
def hasInterfaceUp (enum : Option (List NetInterface)) : Bool :=
  match enum with
  | none => false
  | some ifaces => interfacesScan ifaces

/-- Models `strings.Contains(s, ":")` (reachable.go:131).  In Go the
separator is the single ASCII byte `:` so substring containment
coincides with character containment. -/
def containsColon (s : String) : Bool := s.data.contains ':'

/-- The defaulting step at the top of `canConnect` (reachable.go:131-133):
if the target string contains no colon, append the default port 80 to
the checker's `Hostport` field (an in-place mutation in the source). -/
def ensurePort (c : Checker) : Checker :=
  if containsColon c.Hostport then c else { c with Hostport := c.Hostport ++ ":80" }

/-- One recorded call to `net.DialTimeout` (reachable.go:134). -/
structure DialAttempt where
  network : String
  addr : String
  timeout : Int
deriving DecidableEq

/-- Result of one `canConnect` call: the (possibly updated) checker, the
dial attempt that was issued, and the boolean outcome. -/
structure ConnectResult where
  checker : Checker
  attempt : DialAttempt
  ok : Bool

/-- `Checker.canConnect` (reachable.go:130-140): default the port, then
dial `"tcp"` to the resulting `Hostport` bounded by the process-wide
`DefaultTimeout`; a non-nil dial error yields false, otherwise the
connection is closed and the result is true.  `dialOK` is the network
oracle giving the dial outcome for an address. -/
def canConnect (c : Checker) (defaultTimeout : Int) (dialOK : String → Bool) : ConnectResult :=
  let c := ensurePort c
  { checker := c
    attempt := { network := "tcp", addr := c.Hostport, timeout := defaultTimeout }
    ok := dialOK c.Hostport }

/-- The characters of `s` that follow its last colon (the port part of a
`host:port` string). -/
def portOf (s : String) : String :=
  String.mk ((s.data.reverse.takeWhile fun ch => ch ≠ ':').reverse)

/-- The outside world at one tick of the poll loop: the outcome of
`net.Interfaces()` and the outcome the TCP dial would have. -/
structure ProbeEnv where
  ifaces : Option (List NetInterface)
  dialOk : Bool
deriving DecidableEq

/-- The probe section of one tick (reachable.go:156-159):
`isActive := hasInterfaceUp(); if isActive { isActive = canConnect() }`.
Returns the combined result and whether the dial was attempted. -/
def cycleProbe (env : ProbeEnv) : Bool × Bool :=
  let isActive := hasInterfaceUp env.ifaces
  if isActive then (env.dialOk, true) else (isActive, false)

/-- The integer encoding used by `run`'s `currentStatus` variable:
1 for active (up), 0 for inactive (down). -/
def statusOf (b : Bool) : Int := if b then 1 else 0

/-- The initial value of `currentStatus` (reachable.go:143): -1, distinct
from both encodings, meaning no status has been delivered yet. -/
def initialStatus : Int := -1

/-- The interval defaulting at the top of `run` (reachable.go:144-146):
a zero or negative `Interval` is replaced by `DefaultInterval` before
the ticker is created. -/
def effectiveInterval (interval defaultInterval : Int) : Int :=
  if interval ≤ 0 then defaultInterval else interval

/-- The mutable state of one running poll loop: the ticker period fixed
at loop entry (reachable.go:147) and the `currentStatus` variable. -/
structure LoopState where
  period : Int
  currentStatus : Int
deriving DecidableEq

/-- The tick arm of the `select` (reachable.go:155-170): probe, then
notify `false`/`true` only when `currentStatus` differs from the
encoding of the new outcome, updating `currentStatus` on delivery.
Returns the notifier invocations of this tick and the new state. -/
def tickBody (s : LoopState) (env : ProbeEnv) : List Bool × LoopState :=
  let isActive := (cycleProbe env).1
  if !isActive then
    if s.currentStatus ≠ 0 then ([false], { s with currentStatus := 0 })
    else ([], s)
  else
    if s.currentStatus ≠ 1 then ([true], { s with currentStatus := 1 })
    else ([], s)

/-- One `select` outcome consumed by the loop: a ticker tick carrying
that tick's world state, or the receipt of the cancellation signal sent
by `Stop` on the `quit` channel. -/
inductive RunEvent where
  | tick (env : ProbeEnv)
  | quit
deriving DecidableEq

/-- Observable outcome of a run of the poll loop: the notifier
invocations in order, the number of probes performed, whether
`t.Stop()` ran, how many times `close(c.quit)` ran, and the final
loop state. -/
structure RunResult where
  notifications : List Bool
  probeCount : Nat
  tickerStopped : Bool
  quitCloseCount : Nat
  finalState : LoopState
deriving DecidableEq

/-- The `for { select { ... } }` loop of `run` (reachable.go:148-172)
over a finite list of consumed `select` outcomes.  The `quit` arm stops
the ticker, closes the channel and returns, so everything after it is
ignored; a `tick` arm runs `tickBody`. -/
def runLoop (s : LoopState) : List RunEvent → RunResult
  | [] => { notifications := [], probeCount := 0, tickerStopped := false,
            quitCloseCount := 0, finalState := s }
  | RunEvent.quit :: _ =>
      { notifications := [], probeCount := 0, tickerStopped := true,
        quitCloseCount := 1, finalState := s }
  | RunEvent.tick env :: rest =>
      let r := tickBody s env
      let tail := runLoop r.2 rest
      { notifications := r.1 ++ tail.notifications
        probeCount := tail.probeCount + 1
        tickerStopped := tail.tickerStopped
        quitCloseCount := tail.quitCloseCount
        finalState := tail.finalState }

/-- Tick-only runs of the loop (no cancellation consumed): the
notifications produced and the final state. -/
def ticksRun (s : LoopState) : List ProbeEnv → List Bool × LoopState
  | [] => ([], s)
  | env :: rest =>
    let r := tickBody s env
    let tail := ticksRun r.2 rest
    (r.1 ++ tail.1, tail.2)

/-- `Checker.run` (reachable.go:142-173): `currentStatus := -1`, default
the interval, create the ticker with the resulting period, then loop.
`defaultInterval` is the `DefaultInterval` value read at loop entry. -/
def run (c : Checker) (defaultInterval : Int) (events : List RunEvent) : RunResult :=
  runLoop { period := effectiveInterval c.Interval defaultInterval,
            currentStatus := initialStatus } events

/-- The package-level mutable variables (reachable.go:52-66). -/
structure PackageState where
  NetworkIsReachable : Bool
  DefaultInterval : Int
  DefaultTimeout : Int
deriving DecidableEq

/-- The declared initial values of the package variables
(reachable.go:56-63): the reachability flag starts true. -/
def initPackageState : PackageState :=
  { NetworkIsReachable := true
    DefaultInterval := timeMinute
    DefaultTimeout := 3 * timeSecond }

/-- The facade notifier installed by `Start` (reachable.go:100-102):
it writes its argument into `NetworkIsReachable`. -/
def facadeNotify (s : PackageState) (a : Bool) : PackageState :=
  { s with NetworkIsReachable := a }

/-- The facade `Stop` (reachable.go:107-111): after signalling the
singleton's loop it resets `NetworkIsReachable` to true. -/
def Stop (s : PackageState) : PackageState :=
  { s with NetworkIsReachable := true }

/-! Helper lemmas shared by the claim theorems. -/

/-- The interface scan succeeds exactly when some interface has the up
flag set and the loopback flag clear. -/
theorem interfacesScan_eq_true_iff (l : List NetInterface) :
    interfacesScan l = true ↔
      ∃ x ∈ l, x.flags &&& FlagLoopback = 0 ∧ x.flags &&& FlagUp ≠ 0 := by
  induction l with
  | nil => simp [interfacesScan]
  | cons x rest ih =>
    by_cases h1 : x.flags &&& FlagLoopback = 0
    · by_cases h2 : x.flags &&& FlagUp = 0
      · simp [interfacesScan, h1, h2, ih]
      · simp [interfacesScan, h1, h2]
    · simp [interfacesScan, h1, ih]

/-- Characterisation of one tick: silent when the probe outcome encodes
to the current status, otherwise one notification of the new outcome. -/
theorem tickBody_eq (s : LoopState) (env : ProbeEnv) :
    tickBody s env =
      if statusOf (cycleProbe env).1 = s.currentStatus then ([], s)
      else ([(cycleProbe env).1],
            { s with currentStatus := statusOf (cycleProbe env).1 }) := by
  unfold tickBody statusOf
  cases h : (cycleProbe env).1
  · by_cases hc : s.currentStatus = 0
    · simp [hc]
    · have hc2 : ¬((0 : Int) = s.currentStatus) := fun hh => hc hh.symm
      simp [hc, hc2]
  · by_cases hc : s.currentStatus = 1
    · simp [hc]
    · have hc2 : ¬((1 : Int) = s.currentStatus) := fun hh => hc hh.symm
      simp [hc, hc2]

/-- A run of identical-outcome ticks whose encoding already matches the
current status produces no notifications at all. -/
theorem runLoop_ticks_silent (s : LoopState) (envs : List ProbeEnv) (a : Bool)
    (ha : ∀ e ∈ envs, (cycleProbe e).1 = a) (h : statusOf a = s.currentStatus) :
    (runLoop s (envs.map RunEvent.tick)).notifications = [] := by
  induction envs generalizing s with
  | nil => simp [runLoop]
  | cons env rest ih =>
    have h1 : (cycleProbe env).1 = a := ha env (List.mem_cons_self env rest)
    simp only [List.map_cons, runLoop, tickBody_eq, h1, h, if_pos rfl]
    exact ih s (fun e he => ha e (List.mem_cons_of_mem env he)) h

/-- The probe outcome encoding never equals the initial status value. -/
theorem statusOf_ne_initialStatus (b : Bool) : statusOf b ≠ initialStatus := by
  unfold statusOf initialStatus
  cases b <;> simp

/-- A tick never changes the ticker period stored in the loop state. -/
theorem tickBody_period (s : LoopState) (env : ProbeEnv) :
    ((tickBody s env).2).period = s.period := by
  rw [tickBody_eq]
  by_cases h : statusOf (cycleProbe env).1 = s.currentStatus <;> simp [h]

/-- The whole loop never changes the ticker period. -/
theorem runLoop_period (s : LoopState) (events : List RunEvent) :
    (runLoop s events).finalState.period = s.period := by
  induction events generalizing s with
  | nil => simp [runLoop]
  | cons e rest ih =>
    cases e with
    | quit => simp [runLoop]
    | tick env => simp [runLoop, ih, tickBody_period]

/-- Appending the default port introduces a colon into any string. -/
theorem containsColon_append_port80 (s : String) :
    containsColon (s ++ ":80") = true := by
  unfold containsColon
  rw [String.data_append]
  induction s.data with
  | nil => decide
  | cons a l ih => simp_all [List.contains_cons]

/-- Defaulting the port is idempotent: it fires at most once per
checker. -/
theorem ensurePort_idem (c : Checker) : ensurePort (ensurePort c) = ensurePort c := by
  by_cases h : containsColon c.Hostport = true
  · simp [ensurePort, h]
  · simp only [Bool.not_eq_true] at h
    simp [ensurePort, h, containsColon_append_port80]

/-- C1: in the poll loop, the notifier is invoked at a tick if and only
if the tick's combined probe outcome (under the `statusOf` encoding)
differs from the previously delivered outcome tracked in
`currentStatus`; when it fires, it delivers exactly that outcome; and
N ≥ 1 consecutive ticks with identical outcomes, processed from the
loop's initial status, produce exactly one notification — the first. -/
theorem debounce_tick_iff :
    (∀ (s : LoopState) (env : ProbeEnv),
        (tickBody s env).1 ≠ [] ↔ statusOf (cycleProbe env).1 ≠ s.currentStatus) ∧
    (∀ (s : LoopState) (env : ProbeEnv),
        (tickBody s env).1 ≠ [] → (tickBody s env).1 = [(cycleProbe env).1]) ∧
    (∀ (p : Int) (envs : List ProbeEnv) (a : Bool), envs ≠ [] →
        (∀ e ∈ envs, (cycleProbe e).1 = a) →
        (runLoop { period := p, currentStatus := initialStatus }
            (envs.map RunEvent.tick)).notifications = [a]) := by
  refine ⟨?_, ?_, ?_⟩
  · intro s env
    rw [tickBody_eq]
    by_cases h : statusOf (cycleProbe env).1 = s.currentStatus <;> simp [h]
  · intro s env
    rw [tickBody_eq]
    by_cases h : statusOf (cycleProbe env).1 = s.currentStatus <;> simp [h]
  · intro p envs a hne ha
    obtain ⟨env, rest, rfl⟩ : ∃ e r, envs = e :: r := by
      cases envs with
      | nil => exact absurd rfl hne
      | cons e r => exact ⟨e, r, rfl⟩
    have h1 : (cycleProbe env).1 = a := ha env (List.mem_cons_self env rest)
    simp only [List.map_cons, runLoop, tickBody_eq, h1,
               if_neg (statusOf_ne_initialStatus a)]
    rw [runLoop_ticks_silent _ rest a (fun e he => ha e (List.mem_cons_of_mem env he)) rfl]
    simp

/-- Witness for C1: with no interfaces available the outcome is `false`;
a tick from the initial status fires exactly `notifier(false)`, and three
consecutive false-outcome ticks fire it exactly once. -/
theorem debounce_tick_iff_witness :
    (tickBody { period := 60, currentStatus := initialStatus }
        { ifaces := none, dialOk := true }).1
      = [(cycleProbe { ifaces := none, dialOk := true }).1] ∧
    (runLoop { period := 60, currentStatus := initialStatus }
        (List.map RunEvent.tick
          [{ ifaces := none, dialOk := true },
           { ifaces := none, dialOk := false },
           { ifaces := none, dialOk := true }])).notifications = [false] :=
  ⟨debounce_tick_iff.2.1 _ _ (by decide),
   debounce_tick_iff.2.2 60
      [{ ifaces := none, dialOk := true },
       { ifaces := none, dialOk := false },
       { ifaces := none, dialOk := true }] false (by decide) (by decide)⟩

/-- C2: the first tick processed after Start produces exactly one
notification whatever the probe outcome is, because `currentStatus`
starts at the third value `initialStatus = -1`, distinct from both the
up encoding 1 and the down encoding 0. -/
theorem first_tick_notifies :
    (∀ b : Bool, statusOf b ≠ initialStatus) ∧
    (∀ (p : Int) (env : ProbeEnv),
        (tickBody { period := p, currentStatus := initialStatus } env).1.length = 1) ∧
    (∀ (c : Checker) (d : Int) (env : ProbeEnv) (rest : List RunEvent),
        (run c d (RunEvent.tick env :: rest)).notifications =
          (cycleProbe env).1 ::
            (runLoop (tickBody { period := effectiveInterval c.Interval d,
                                 currentStatus := initialStatus } env).2 rest).notifications) := by
  refine ⟨statusOf_ne_initialStatus, ?_, ?_⟩
  · intro p env
    rw [tickBody_eq, if_neg (statusOf_ne_initialStatus (cycleProbe env).1)]
    rfl
  · intro c d env rest
    unfold run
    conv_lhs => rw [runLoop]
    rw [tickBody_eq, if_neg (statusOf_ne_initialStatus (cycleProbe env).1)]
    simp [tickBody_eq, if_neg (statusOf_ne_initialStatus (cycleProbe env).1)]

/-- Witness for C2: a concrete first tick with a failing probe
prepends exactly one notification, and both encodings differ from the
initial status. -/
theorem first_tick_notifies_witness :
    statusOf true ≠ initialStatus ∧
    statusOf false ≠ initialStatus ∧
    (run { Hostport := "example.com", Interval := 0 } 60
        [RunEvent.tick { ifaces := none, dialOk := true }]).notifications =
      (cycleProbe { ifaces := none, dialOk := true }).1 ::
        (runLoop (tickBody { period := effectiveInterval (0 : Int) 60,
                             currentStatus := initialStatus }
            { ifaces := none, dialOk := true }).2 []).notifications :=
  ⟨first_tick_notifies.1 true, first_tick_notifies.1 false,
   first_tick_notifies.2.2 { Hostport := "example.com", Interval := 0 } 60
      { ifaces := none, dialOk := true } []⟩

/-- C3: once the loop consumes the cancellation signal, it stops the
ticker, closes the quit channel exactly once and exits: the run's
notifications and probes are exactly those of the ticks that preceded
the signal, no matter what events (network states) come after it. -/
theorem quit_terminates_loop :
    ∀ (s : LoopState) (envs : List ProbeEnv) (post : List RunEvent),
      runLoop s (envs.map RunEvent.tick ++ RunEvent.quit :: post) =
        { notifications := (ticksRun s envs).1
          probeCount := envs.length
          tickerStopped := true
          quitCloseCount := 1
          finalState := (ticksRun s envs).2 } := by
  intro s envs post
  induction envs generalizing s with
  | nil => simp [runLoop, ticksRun]
  | cons env rest ih => simp [runLoop, ticksRun, ih]

/-- Witness for C3: one down tick followed by the cancellation signal
and then a world where the dial would succeed: one notification, one
probe, ticker stopped, channel closed once. -/
theorem quit_terminates_loop_witness :
    runLoop { period := 60, currentStatus := initialStatus }
        ([{ ifaces := none, dialOk := false }].map RunEvent.tick ++
          RunEvent.quit :: [RunEvent.tick { ifaces := some [{ flags := 1 }], dialOk := true }]) =
      { notifications :=
          (ticksRun { period := 60, currentStatus := initialStatus }
            [{ ifaces := none, dialOk := false }]).1
        probeCount := [({ ifaces := none, dialOk := false } : ProbeEnv)].length
        tickerStopped := true
        quitCloseCount := 1
        finalState :=
          (ticksRun { period := 60, currentStatus := initialStatus }
            [{ ifaces := none, dialOk := false }]).2 } :=
  quit_terminates_loop { period := 60, currentStatus := initialStatus }
    [{ ifaces := none, dialOk := false }]
    [RunEvent.tick { ifaces := some [{ flags := 1 }], dialOk := true }]

/-- C4: `hasInterfaceUp` returns true iff enumeration succeeded and some
enumerated interface has the up flag set and the loopback flag clear;
on enumeration failure it returns false and the combined probe outcome
of that cycle is false. -/
theorem hasInterfaceUp_spec :
    (∀ enum : Option (List NetInterface),
        hasInterfaceUp enum = true ↔
          ∃ l, enum = some l ∧
            ∃ x ∈ l, x.flags &&& FlagLoopback = 0 ∧ x.flags &&& FlagUp ≠ 0) ∧
    hasInterfaceUp none = false ∧
    (∀ env : ProbeEnv, env.ifaces = none → (cycleProbe env).1 = false) := by
  refine ⟨?_, rfl, ?_⟩
  · intro enum
    cases enum with
    | none => simp [hasInterfaceUp]
    | some l => simp [hasInterfaceUp, interfacesScan_eq_true_iff]
  · intro env h
    simp [cycleProbe, hasInterfaceUp, h]

/-- Witness for C4: a cycle whose interface enumeration failed has a
false combined outcome even though the dial oracle would succeed. -/
theorem hasInterfaceUp_spec_witness :
    (cycleProbe { ifaces := none, dialOk := true }).1 = false :=
  hasInterfaceUp_spec.2.2 { ifaces := none, dialOk := true } rfl

/-- C5: every cycle's combined probe result is the conjunction of the
interface check and the dial outcome, and when the interface check is
false the dial is never attempted in that cycle. -/
theorem probe_short_circuit :
    ∀ env : ProbeEnv,
      (cycleProbe env).1 = (hasInterfaceUp env.ifaces && env.dialOk) ∧
      (hasInterfaceUp env.ifaces = false → (cycleProbe env).2 = false) := by
  intro env
  constructor
  · unfold cycleProbe
    cases h : hasInterfaceUp env.ifaces <;> simp [h]
  · intro h
    simp [cycleProbe, h]

/-- Witness for C5: with failed enumeration the interface check is
false and the cycle performs no dial. -/
theorem probe_short_circuit_witness :
    hasInterfaceUp (none : Option (List NetInterface)) = false ∧
    (cycleProbe { ifaces := none, dialOk := true }).2 = false :=
  ⟨by decide, (probe_short_circuit { ifaces := none, dialOk := true }).2 (by decide)⟩

/-- C6: `canConnect` dials a target holding no colon at the appended
default port 80, and a target already holding a port at exactly that
address: the spec's examples dial example.com at port 80 and
example.com:443 at port 443, not 80. -/
theorem canConnect_default_port :
    (∀ (c : Checker) (t : Int) (dialOK : String → Bool),
        containsColon c.Hostport = false →
          (canConnect c t dialOK).attempt.addr = c.Hostport ++ ":80") ∧
    (∀ (c : Checker) (t : Int) (dialOK : String → Bool),
        containsColon c.Hostport = true →
          (canConnect c t dialOK).attempt.addr = c.Hostport) ∧
    (canConnect { Hostport := "example.com", Interval := 0 } 0
        (fun _ => true)).attempt.addr = "example.com:80" ∧
    portOf (canConnect { Hostport := "example.com", Interval := 0 } 0
        (fun _ => true)).attempt.addr = "80" ∧
    (canConnect { Hostport := "example.com:443", Interval := 0 } 0
        (fun _ => true)).attempt.addr = "example.com:443" ∧
    portOf (canConnect { Hostport := "example.com:443", Interval := 0 } 0
        (fun _ => true)).attempt.addr = "443" := by
  refine ⟨?_, ?_, by decide, by decide, by decide, by decide⟩
  · intro c t dialOK h
    simp [canConnect, ensurePort, h]
  · intro c t dialOK h
    simp [canConnect, ensurePort, h]

/-- Witness for C6: concrete instances of both defaulting branches. -/
theorem canConnect_default_port_witness :
    (canConnect { Hostport := "example.com", Interval := 0 } 7
        (fun _ => false)).attempt.addr = "example.com" ++ ":80" ∧
    (canConnect { Hostport := "example.com:443", Interval := 0 } 7
        (fun _ => false)).attempt.addr = "example.com:443" :=
  ⟨canConnect_default_port.1 { Hostport := "example.com", Interval := 0 } 7
      (fun _ => false) (by decide),
   canConnect_default_port.2.1 { Hostport := "example.com:443", Interval := 0 } 7
      (fun _ => false) (by decide)⟩

/-- C7: the package-level reachability flag is declared true, so it
reads true before any Start; and the facade Stop resets it to true from
any package state, whatever the last notified value was. -/
theorem stop_resets_flag :
    initPackageState.NetworkIsReachable = true ∧
    (∀ s : PackageState, (Stop s).NetworkIsReachable = true) ∧
    (∀ (s : PackageState) (a : Bool),
        (Stop (facadeNotify s a)).NetworkIsReachable = true) :=
  ⟨rfl, fun _ => rfl, fun _ _ => rfl⟩

/-- Witness for C7: stopping after a false notification still reads
true. -/
theorem stop_resets_flag_witness :
    (Stop (facadeNotify initPackageState false)).NetworkIsReachable = true :=
  stop_resets_flag.2.2 initPackageState false

/-- C8: every dial issued by `canConnect` is bounded by the
process-wide default timeout in effect; the `Checker` struct carries no
per-checker timeout field, so the bound never varies between checkers
sharing the same default. -/
theorem dial_timeout_default :
    ∀ (c : Checker) (t : Int) (dialOK : String → Bool),
      (canConnect c t dialOK).attempt.timeout = t ∧
      (∀ c2 : Checker,
          (canConnect c2 t dialOK).attempt.timeout
            = (canConnect c t dialOK).attempt.timeout) :=
  fun _ _ _ => ⟨rfl, fun _ => rfl⟩

/-- Witness for C8: two different checkers dialed under the same
default are bounded by that same default timeout. -/
theorem dial_timeout_default_witness :
    (canConnect { Hostport := "example.com", Interval := 0 } (3 * timeSecond)
        (fun _ => true)).attempt.timeout = 3 * timeSecond ∧
    (canConnect { Hostport := "bing.com:443", Interval := 7 } (3 * timeSecond)
        (fun _ => true)).attempt.timeout
      = (canConnect { Hostport := "example.com", Interval := 0 } (3 * timeSecond)
          (fun _ => true)).attempt.timeout :=
  ⟨(dial_timeout_default { Hostport := "example.com", Interval := 0 }
      (3 * timeSecond) (fun _ => true)).1,
   (dial_timeout_default { Hostport := "example.com", Interval := 0 }
      (3 * timeSecond) (fun _ => true)).2 { Hostport := "bing.com:443", Interval := 7 }⟩

/-- C9: a non-positive `Interval` is replaced by the default interval
adopted at loop entry, a positive one is kept; and the resulting ticker
period is never changed by the loop, so it stays fixed for the whole
run. -/
theorem interval_defaulting :
    (∀ i d : Int, i ≤ 0 → effectiveInterval i d = d) ∧
    (∀ i d : Int, 0 < i → effectiveInterval i d = i) ∧
    (∀ (s : LoopState) (env : ProbeEnv), ((tickBody s env).2).period = s.period) ∧
    (∀ (s : LoopState) (events : List RunEvent),
        (runLoop s events).finalState.period = s.period) ∧
    (∀ (c : Checker) (d : Int) (events : List RunEvent),
        (run c d events).finalState.period = effectiveInterval c.Interval d) := by
  refine ⟨?_, ?_, tickBody_period, runLoop_period, ?_⟩
  · intro i d h
    simp [effectiveInterval, h]
  · intro i d h
    simp [effectiveInterval, not_le.mpr h]
  · intro c d events
    unfold run
    rw [runLoop_period]

/-- Witness for C9: a zero interval defaults to the adopted value and a
positive one is kept. -/
theorem interval_defaulting_witness :
    effectiveInterval 0 timeMinute = timeMinute ∧
    effectiveInterval 7 timeMinute = 7 :=
  ⟨interval_defaulting.1 0 timeMinute (by decide),
   interval_defaulting.2.1 7 timeMinute (by decide)⟩

/-- C10: the default port is appended exactly when the target holds no
colon anywhere — a bare IPv6 literal such as ::1 is passed to the
dialer unchanged — and, because the append updates the checker's
`Hostport` field, it happens at most once per checker and the dialed
address is stable across all subsequent probes. -/
theorem hostport_colon_append :
    (∀ c : Checker, containsColon c.Hostport = true → ensurePort c = c) ∧
    (∀ c : Checker, containsColon c.Hostport = false →
        ensurePort c = { c with Hostport := c.Hostport ++ ":80" }) ∧
    ensurePort { Hostport := "::1", Interval := 0 }
      = { Hostport := "::1", Interval := 0 } ∧
    (∀ c : Checker, ensurePort (ensurePort c) = ensurePort c) ∧
    (∀ (c : Checker) (t : Int) (dialOK : String → Bool),
        (canConnect c t dialOK).checker = ensurePort c ∧
        (canConnect (canConnect c t dialOK).checker t dialOK).attempt.addr
          = (canConnect c t dialOK).attempt.addr) ∧
    (∀ (c : Checker) (n : Nat), ensurePort^[n + 1] c = ensurePort c) := by
  refine ⟨?_, ?_, by decide, ensurePort_idem, ?_, ?_⟩
  · intro c h
    simp [ensurePort, h]
  · intro c h
    simp [ensurePort, h]
  · intro c t dialOK
    refine ⟨rfl, ?_⟩
    show (ensurePort (ensurePort c)).Hostport = (ensurePort c).Hostport
    rw [ensurePort_idem]
  · intro c n
    induction n with
    | zero => simp
    | succ m ih =>
      rw [Function.iterate_succ_apply', ih, ensurePort_idem]

/-- Witness for C10: the bare IPv6 literal ::1 is passed through
unchanged and the colon-free target example.com gets the default port
appended. -/
theorem hostport_colon_append_witness :
    ensurePort { Hostport := "::1", Interval := 0 } = { Hostport := "::1", Interval := 0 } ∧
    ensurePort { Hostport := "example.com", Interval := 0 }
      = { Hostport := "example.com" ++ ":80", Interval := 0 } :=
  ⟨hostport_colon_append.1 { Hostport := "::1", Interval := 0 } (by decide),
   hostport_colon_append.2.1 { Hostport := "example.com", Interval := 0 } (by decide)⟩

end Reachable
